import Mathlib

/-!
Verification of the session & credential lifecycle manager of the
suno-api-mcp repository, shallowly embedded from `src/server.py` and
`src/browser_session.py`.

The embedding models the module-level mutable state of `server.py`
(`_access_token`, `_token_expires`, `_session_id`, `_auth_state`,
`_last_auth_error`, `_last_refresh_at`, `_consecutive_refresh_failures`,
`_reauth_required_since`) as an explicit `ServerState` record, and the
operations `_resolve_session`, `_refresh_access_token`, `_ensure_token`
and the downstream-401 "mark unauthenticated" branch of the tools
(`generate_liquid_dnb` / `get_credits`) as state-passing functions.
Network I/O is represented by an environment (`RefreshEnv`) giving the
outcome of each HTTP call, and an effect counter (`Effects`) recording
how many session-resolution calls, token-exchange calls and webhook
notifications a given operation issued.  Time is an explicit `Int`
parameter, split into `monoNow` (Python `time.monotonic()`) and
`wallNow` (Python `time.time()`).
-/

deriving instance DecidableEq for Except

/-- The values of the `_auth_state` global in `server.py`
(`"ok" | "degraded" | "reauth_required"`). -/
inductive AuthState where
  | ok
  | degraded
  | reauthRequired
deriving DecidableEq, Repr

/-- The module-level mutable credential state of `server.py`
(lines 50-62). `tokenExpires` is on the monotonic clock, the two
timestamps `lastRefreshAt` / `reauthRequiredSince` are wall-clock. -/
structure ServerState where
  accessToken : String
  tokenExpires : Int
  sessionId : String
  authState : AuthState
  lastAuthError : String
  lastRefreshAt : Option Int
  consecutiveRefreshFailures : Nat
  reauthRequiredSince : Option Int
deriving DecidableEq, Repr

/-- Initial values of the globals in `server.py`: `_access_token = ""`,
`_token_expires = 0.0`, `_session_id = ""`, `_auth_state = "ok"`,
`_last_auth_error = ""`, `_last_refresh_at = None`,
`_consecutive_refresh_failures = 0`, `_reauth_required_since = None`. -/
def initServerState : ServerState :=
  { accessToken := ""
    tokenExpires := 0
    sessionId := ""
    authState := .ok
    lastAuthError := ""
    lastRefreshAt := none
    consecutiveRefreshFailures := 0
    reauthRequiredSince := none }

/-- `TOKEN_REFRESH_MARGIN = 30` in `server.py` line 54. -/
def TOKEN_REFRESH_MARGIN : Int := 30

/-- `MAX_REFRESH_FAILURES = 3` in `server.py` line 55. -/
def MAX_REFRESH_FAILURES : Nat := 3

/-- The environment configuration read at module load in `server.py`:
`SUNO_REFRESH_TOKEN` (line 33) and the legacy `SUNO_SESSION_TOKEN`
(line 35); both default to the empty string. -/
structure Config where
  sunoRefreshToken : String
  sunoSessionToken : String
deriving DecidableEq, Repr

/-- One entry of the `sessions` list in the Clerk `/v1/client` response;
`_resolve_session` only reads its `id` field (`sessions[0].get("id", "")`),
which may be absent. -/
structure SessionEntry where
  id : Option String
deriving DecidableEq, Repr

/-- The client object extracted from the Clerk `/v1/client` response
body by `_resolve_session` (`client_obj = data.get("response", data)`).
Both fields read by the code may be absent from the JSON. -/
structure ClientObj where
  lastActiveSessionId : Option String
  sessions : Option (List SessionEntry)
deriving DecidableEq, Repr

/-- Outcome of the Clerk `GET /v1/client` call issued by
`_resolve_session`: either an HTTP-level failure (network error or
`raise_for_status`) or a parsed client object. -/
inductive ResolveResp where
  | httpError (msg : String)
  | ok (client : ClientObj)
deriving DecidableEq, Repr

/-- Outcome of the Clerk `POST /v1/client/sessions/{id}/tokens` call
issued by `_refresh_access_token`: either an HTTP-level failure or a
2xx response whose `jwt` field is the given string (`data.get("jwt", "")`
yields `""` when the field is absent). -/
inductive ExchangeResp where
  | httpError (msg : String)
  | ok (jwt : String)
deriving DecidableEq, Repr

/-- The network environment for one pass through the refresh path:
what each of the two Clerk endpoints would answer if called. -/
structure RefreshEnv where
  resolveResp : ResolveResp
  exchangeResp : ExchangeResp
deriving DecidableEq, Repr

/-- The errors raised by the credential manager.  In the Python source
these are distinct `RuntimeError` / `httpx` exceptions:
`reauthRequired` is both the fail-fast raise in `_ensure_token` and the
threshold raise in `_refresh_access_token`; `refreshFailed` is the
transient re-raise of the underlying exchange failure;
`sessionResolution` is the `RuntimeError` in `_resolve_session` when no
session id can be extracted; `httpError` is `raise_for_status` in
`_resolve_session` (outside the failure-counting `try`); and
`noCredentials` is the final raise in `_ensure_token` when neither
token variable is set. -/
inductive AuthError where
  | reauthRequired
  | refreshFailed (msg : String)
  | sessionResolution (msg : String)
  | httpError (msg : String)
  | noCredentials
deriving DecidableEq, Repr

/-- Count of the externally observable effects of one operation:
Clerk session-resolution calls, Clerk token-exchange calls, and
invocations of `_send_auth_notification`. -/
structure Effects where
  resolveCalls : Nat
  exchangeCalls : Nat
  notifications : Nat
deriving DecidableEq, Repr

/-- The zero effect record: no network calls, no notifications. -/
def Effects.zero : Effects := ⟨0, 0, 0⟩

/-- Result of one operation on the credential manager: the value
returned or error raised, the final global state, and the effects
issued while running. -/
structure OpResult (α : Type) where
  result : Except AuthError α
  state : ServerState
  eff : Effects
deriving DecidableEq, Repr

/-- Session-id extraction from the parsed client object, as in
`_resolve_session` lines 160-165: take `last_active_session_id`
(defaulting to `""` when absent); if that is empty, take the `id` of
the first entry of the `sessions` list (defaulting to `""`). -/
def clientSessionId (c : ClientObj) : String :=
  let sid0 := c.lastActiveSessionId.getD ""
  if sid0 = "" then
    match c.sessions.getD [] with
    | [] => sid0
    | e :: _ => e.id.getD ""
  else sid0

/-- Embedding of `_resolve_session` (`server.py` lines 144-171).
If `_session_id` is already cached it is returned with no network
call; otherwise the Clerk `/v1/client` endpoint is called, the session
id extracted via `clientSessionId`, cached and returned, and a
`RuntimeError` is raised when no id could be extracted. -/
def resolveSession (env : RefreshEnv) (st : ServerState) : OpResult String :=
  if st.sessionId ≠ "" then
    ⟨.ok st.sessionId, st, Effects.zero⟩
  else
    match env.resolveResp with
    | .httpError m => ⟨.error (.httpError m), st, ⟨1, 0, 0⟩⟩
    | .ok c =>
      let sid := clientSessionId c
      if sid = "" then
        ⟨.error (.sessionResolution
            "Could not resolve Clerk session ID. Refresh token may be invalid."),
          st, ⟨1, 0, 0⟩⟩
      else
        ⟨.ok sid, { st with sessionId := sid }, ⟨1, 0, 0⟩⟩

/-- The `except` branch of `_refresh_access_token` (`server.py` lines
206-221): increment `_consecutive_refresh_failures`, record the error,
set `_auth_state = "degraded"`; when the failure count has reached
`MAX_REFRESH_FAILURES`, escalate to `"reauth_required"`, set
`_reauth_required_since` only if not already set, send the one
notification and raise the re-auth error; otherwise re-raise the
transient error. -/
def refreshFailure (msg : String) (wallNow : Int) (st : ServerState)
    (eff : Effects) : OpResult String :=
  let n := st.consecutiveRefreshFailures + 1
  let st1 := { st with
    consecutiveRefreshFailures := n
    lastAuthError := msg
    authState := AuthState.degraded }
  if MAX_REFRESH_FAILURES ≤ n then
    ⟨.error .reauthRequired,
      { st1 with
        authState := AuthState.reauthRequired
        reauthRequiredSince := some (st1.reauthRequiredSince.getD wallNow) },
      { eff with notifications := eff.notifications + 1 }⟩
  else
    ⟨.error (.refreshFailed msg), st1, eff⟩

/-- Embedding of `_refresh_access_token` (`server.py` lines 174-221).
Resolve the session id (outside the failure-counting `try`, so its
errors propagate without touching the failure counters), then call the
Clerk token-exchange endpoint.  On a 2xx response the code first
stores `data.get("jwt", "")` into `_access_token` and then raises when
it is empty (a counted failure); on a non-empty token it sets
`_token_expires = monotonic + 55`, records `_last_refresh_at`, resets
the failure counters and sets `_auth_state = "ok"`. -/
def refreshAccessToken (monoNow wallNow : Int) (env : RefreshEnv)
    (st : ServerState) : OpResult String :=
  match resolveSession env st with
  | ⟨.error e, st1, eff⟩ => ⟨.error e, st1, eff⟩
  | ⟨.ok _, st1, eff⟩ =>
    let eff1 := { eff with exchangeCalls := eff.exchangeCalls + 1 }
    match env.exchangeResp with
    | .httpError m => refreshFailure m wallNow st1 eff1
    | .ok jwt =>
      if jwt = "" then
        refreshFailure "Token refresh failed: no jwt in response" wallNow
          { st1 with accessToken := "" } eff1
      else
        ⟨.ok jwt,
          { st1 with
            accessToken := jwt
            tokenExpires := monoNow + 55
            lastRefreshAt := some wallNow
            consecutiveRefreshFailures := 0
            lastAuthError := ""
            authState := AuthState.ok
            reauthRequiredSince := none },
          eff1⟩

/-- Embedding of `_ensure_token` (`server.py` lines 224-243).  With a
refresh token configured: fail fast in `reauth_required` state, refresh
when no token is cached or the monotonic clock is past
`_token_expires - TOKEN_REFRESH_MARGIN`, and otherwise return the
cached token.  Without a refresh token, return the legacy
`SUNO_SESSION_TOKEN` unconditionally when it is set, and raise
otherwise. -/
def ensureToken (cfg : Config) (monoNow wallNow : Int) (env : RefreshEnv)
    (st : ServerState) : OpResult String :=
  if cfg.sunoRefreshToken ≠ "" then
    if st.authState = AuthState.reauthRequired then
      ⟨.error .reauthRequired, st, Effects.zero⟩
    else if st.accessToken = "" ∨ monoNow > st.tokenExpires - TOKEN_REFRESH_MARGIN then
      match refreshAccessToken monoNow wallNow env st with
      | ⟨.ok _, st1, eff⟩ => ⟨.ok st1.accessToken, st1, eff⟩
      | ⟨.error e, st1, eff⟩ => ⟨.error e, st1, eff⟩
    else
      ⟨.ok st.accessToken, st, Effects.zero⟩
  else if cfg.sunoSessionToken ≠ "" then
    ⟨.ok cfg.sunoSessionToken, st, Effects.zero⟩
  else
    ⟨.error .noCredentials, st, Effects.zero⟩

/-- Embedding of the downstream-401 "mark unauthenticated" branch that
appears identically in `generate_liquid_dnb` (`server.py` lines
515-521) and `get_credits` (lines 600-606): force
`_auth_state = "reauth_required"`, record the error message, set
`_reauth_required_since` only if not already set, and send one
notification. -/
def markUnauthenticated (wallNow : Int) (msg : String) (st : ServerState) :
    ServerState × Effects :=
  ({ st with
      authState := AuthState.reauthRequired
      lastAuthError := msg
      reauthRequiredSince := some (st.reauthRequiredSince.getD wallNow) },
    ⟨0, 0, 1⟩)

/-- One tool-level interaction with the credential manager, as in
`generate_liquid_dnb` / `get_credits`: obtain headers via
`_ensure_token`; when that succeeded and the downstream Suno call then
answered 401 (`downstream401`), run the mark-unauthenticated branch.
When `_ensure_token` raised, the tool returns an error string and the
downstream call (and hence the 401 branch) never happens. -/
def toolStep (cfg : Config) (monoNow wallNow : Int) (env : RefreshEnv)
    (downstream401 : Bool) (st : ServerState) : ServerState :=
  let r := ensureToken cfg monoNow wallNow env st
  match r.result with
  | .ok _ =>
    if downstream401 then
      (markUnauthenticated wallNow "Suno API returned 401 during generation request" r.state).1
    else r.state
  | .error _ => r.state

/-- One observable event driving the credential manager: a tool call at
the given clock readings, with the given network environment, whose
downstream Suno call answers 401 exactly when `downstream401` is set. -/
structure Step where
  monoNow : Int
  wallNow : Int
  env : RefreshEnv
  downstream401 : Bool
deriving DecidableEq, Repr

/-- Run a sequence of tool-level events against the credential state. -/
def runSteps (cfg : Config) (st : ServerState) : List Step → ServerState
  | [] => st
  | s :: rest => runSteps cfg (toolStep cfg s.monoNow s.wallNow s.env s.downstream401 st) rest

/-- The AuthHealth invariant claimed by the spec:
`state == REAUTH_REQUIRED ⇔ consecutiveFailures ≥ MAX_FAILURES`. -/
def authInvariant (st : ServerState) : Prop :=
  st.authState = AuthState.reauthRequired ↔
    MAX_REFRESH_FAILURES ≤ st.consecutiveRefreshFailures

/-- The direction of the invariant that the code does maintain:
`consecutiveFailures ≥ MAX_FAILURES` implies `state == REAUTH_REQUIRED`. -/
def authInvariantBack (st : ServerState) : Prop :=
  MAX_REFRESH_FAILURES ≤ st.consecutiveRefreshFailures →
    st.authState = AuthState.reauthRequired

instance (st : ServerState) : Decidable (authInvariant st) := by
  unfold authInvariant
  infer_instance

instance (st : ServerState) : Decidable (authInvariantBack st) := by
  unfold authInvariantBack
  infer_instance

/-- A failing outcome of the token-exchange call, as classified by the
`except` branch of `_refresh_access_token`: an HTTP-level error, or a
2xx response with no (equivalently an empty) `jwt` field. -/
def exchangeFails : ExchangeResp → Prop
  | .httpError _ => True
  | .ok jwt => jwt = ""

instance (r : ExchangeResp) : Decidable (exchangeFails r) := by
  unfold exchangeFails
  cases r <;> infer_instance

/-- The value the Playwright `page.evaluate` call in
`BrowserSession.get_hcaptcha_token` hands back to Python: the page
script returns `null`, a string, or some other JSON value. -/
inductive JsValue where
  | null
  | str (s : String)
  | other
deriving DecidableEq, Repr

/-- Outcome of the challenge execution in
`BrowserSession.get_hcaptcha_token` (`browser_session.py` lines
217-240): the `evaluate` call either raises or produces a value. -/
inductive EvalResult where
  | exn (msg : String)
  | value (v : JsValue)
deriving DecidableEq, Repr

/-- The token classification of `BrowserSession.get_hcaptcha_token`
(`browser_session.py` lines 217-240): an exception is caught and
yields `None`; a value is returned exactly when it is a truthy string
of length greater than 20 (`if token and isinstance(token, str) and
len(token) > 20`), and `None` otherwise. -/
def hcaptchaTokenResult : EvalResult → Option String
  | .exn _ => none
  | .value .null => none
  | .value .other => none
  | .value (.str s) => if s ≠ "" ∧ 20 < s.length then some s else none

/-- A network environment in which both Clerk endpoints fail; used as a
placeholder where the environment is provably never consulted. -/
def downEnv : RefreshEnv := ⟨.httpError "connection refused", .httpError "connection refused"⟩

/-- A network environment in which both Clerk endpoints succeed:
session resolution answers `sess_1` and the token exchange issues
`jwt1`. -/
def happyEnv : RefreshEnv :=
  ⟨.ok { lastActiveSessionId := some "sess_1", sessions := none }, .ok "jwt1"⟩

/-- A configuration using the refresh-token flow. -/
def refreshCfg : Config := ⟨"refresh-secret", ""⟩

/-- A configuration using only the legacy direct session token. -/
def legacyCfg : Config := ⟨"", "legacy-session-token"⟩

/-- Progress of one asyncio task running `_ensure_token` in the
refresh-token flow with the session id already cached.  The code up to
issuing the Clerk token-exchange `POST` runs without an `await` on the
shared state, so it is one atomic step; the task then suspends at the
`httpx` call (`awaitingExchange`) and applies the success branch of
`_refresh_access_token` when the response arrives. -/
inductive TaskPhase where
  | start
  | awaitingExchange
  | done (res : Except AuthError String)
deriving DecidableEq, Repr

/-- Shared state of two asyncio tasks concurrently calling
`_ensure_token` on the same module-level globals, plus a count of the
token-exchange network calls issued so far. -/
structure ConcState where
  shared : ServerState
  taskA : TaskPhase
  taskB : TaskPhase
  exchangeCalls : Nat
deriving DecidableEq, Repr

/-- Replace the phase of the selected task. -/
def setPhase (c : ConcState) (isA : Bool) (ph : TaskPhase) : ConcState :=
  if isA then { c with taskA := ph } else { c with taskB := ph }

/-- One scheduler step: run the selected task from its current phase to
its next suspension point.  `server.py` takes no lock anywhere on this
path, so between the expiry check and the arrival of the exchange
response the other task is free to run the same check.  The exchange
response for either task is a success carrying `jwt`. -/
def taskStep (monoNow wallNow : Int) (jwt : String) (c : ConcState)
    (isA : Bool) : ConcState :=
  match (if isA then c.taskA else c.taskB) with
  | .done _ => c
  | .start =>
    if c.shared.authState = AuthState.reauthRequired then
      setPhase c isA (.done (.error .reauthRequired))
    else if c.shared.accessToken = "" ∨
        monoNow > c.shared.tokenExpires - TOKEN_REFRESH_MARGIN then
      { setPhase c isA .awaitingExchange with exchangeCalls := c.exchangeCalls + 1 }
    else
      setPhase c isA (.done (.ok c.shared.accessToken))
  | .awaitingExchange =>
    let st := { c.shared with
      accessToken := jwt
      tokenExpires := monoNow + 55
      lastRefreshAt := some wallNow
      consecutiveRefreshFailures := 0
      lastAuthError := ""
      authState := AuthState.ok
      reauthRequiredSince := none }
    setPhase { c with shared := st } isA (.done (.ok jwt))

/-- Run a schedule (a list of task selections, `true` = task A) over
the two-task state. -/
def runSchedule (monoNow wallNow : Int) (jwt : String) (c : ConcState) :
    List Bool → ConcState
  | [] => c
  | b :: rest => runSchedule monoNow wallNow jwt (taskStep monoNow wallNow jwt c b) rest

/-- Two tasks both about to call `_ensure_token` on an expired (never
yet issued) token, with the session id already cached. -/
def concInit : ConcState :=
  ⟨{ initServerState with sessionId := "sess_1" }, .start, .start, 0⟩

/-!  Helper lemmas about the operations, shared by the claim theorems. -/

theorem resolveSession_cached (env : RefreshEnv) (st : ServerState)
    (hsid : st.sessionId ≠ "") :
    resolveSession env st = ⟨.ok st.sessionId, st, Effects.zero⟩ := by
  simp [resolveSession, hsid]

theorem ensureToken_reauth (cfg : Config) (monoNow wallNow : Int) (env : RefreshEnv)
    (st : ServerState) (hcfg : cfg.sunoRefreshToken ≠ "")
    (h : st.authState = AuthState.reauthRequired) :
    ensureToken cfg monoNow wallNow env st = ⟨.error .reauthRequired, st, Effects.zero⟩ := by
  simp [ensureToken, hcfg, h]

theorem ensureToken_cached (cfg : Config) (monoNow wallNow : Int) (env : RefreshEnv)
    (st : ServerState) (hcfg : cfg.sunoRefreshToken ≠ "")
    (h1 : st.authState ≠ AuthState.reauthRequired)
    (h2 : st.accessToken ≠ "")
    (h3 : ¬ (monoNow > st.tokenExpires - TOKEN_REFRESH_MARGIN)) :
    ensureToken cfg monoNow wallNow env st = ⟨.ok st.accessToken, st, Effects.zero⟩ := by
  simp [ensureToken, hcfg, h1, h2, h3]

theorem ensureToken_refresh_success (cfg : Config) (monoNow wallNow : Int)
    (env : RefreshEnv) (st : ServerState) (jwt : String)
    (hcfg : cfg.sunoRefreshToken ≠ "")
    (h1 : st.authState ≠ AuthState.reauthRequired)
    (hneed : st.accessToken = "" ∨ monoNow > st.tokenExpires - TOKEN_REFRESH_MARGIN)
    (hsid : st.sessionId ≠ "")
    (hx : env.exchangeResp = .ok jwt) (hjwt : jwt ≠ "") :
    ensureToken cfg monoNow wallNow env st =
      ⟨.ok jwt,
        { st with
          accessToken := jwt
          tokenExpires := monoNow + 55
          lastRefreshAt := some wallNow
          consecutiveRefreshFailures := 0
          lastAuthError := ""
          authState := AuthState.ok
          reauthRequiredSince := none },
        ⟨0, 1, 0⟩⟩ := by
  simp [ensureToken, refreshAccessToken, resolveSession_cached env st hsid,
    Effects.zero, hcfg, h1, hneed, hx, hjwt]

/-!  Claim theorems. -/

/-- C3: whenever the auth state is `reauth_required` and the
refresh-token flow is configured, `_ensure_token` fails immediately with
the re-auth error, leaves the state untouched and performs no network
I/O: neither the session-resolution call nor the token-exchange call is
issued (all effect counters are zero). -/
theorem ensure_token_fails_fast_when_reauth_required (cfg : Config)
    (monoNow wallNow : Int) (env : RefreshEnv) (st : ServerState)
    (hcfg : cfg.sunoRefreshToken ≠ "")
    (h : st.authState = AuthState.reauthRequired) :
    ensureToken cfg monoNow wallNow env st =
      ⟨.error .reauthRequired, st, Effects.zero⟩ :=
  ensureToken_reauth cfg monoNow wallNow env st hcfg h

/-- Witness for C3: a concrete state in `reauth_required` with a live
network environment; the call fails fast with zero effects. -/
theorem ensure_token_fails_fast_when_reauth_required_witness :
    ensureToken refreshCfg 1000 1000 happyEnv
        { initServerState with authState := AuthState.reauthRequired } =
      ⟨.error .reauthRequired,
        { initServerState with authState := AuthState.reauthRequired },
        Effects.zero⟩ :=
  ensure_token_fails_fast_when_reauth_required refreshCfg 1000 1000 happyEnv
    { initServerState with authState := AuthState.reauthRequired }
    (by decide) rfl

/-- C10: when `SUNO_REFRESH_TOKEN` is empty and the legacy
`SUNO_SESSION_TOKEN` is non-empty, every `_ensure_token` call returns
the static legacy token unconditionally: for every state (including
`reauth_required`) and every clock reading, the state is unchanged, no
network call is made and no fail-fast check applies. -/
theorem legacy_session_token_bypass (cfg : Config) (monoNow wallNow : Int)
    (env : RefreshEnv) (st : ServerState)
    (h1 : cfg.sunoRefreshToken = "") (h2 : cfg.sunoSessionToken ≠ "") :
    ensureToken cfg monoNow wallNow env st =
      ⟨.ok cfg.sunoSessionToken, st, Effects.zero⟩ := by
  simp [ensureToken, h1, h2]

/-- Witness for C10: the legacy configuration at a state that is in
`reauth_required` with three recorded failures still hands out the
legacy token with no effects. -/
theorem legacy_session_token_bypass_witness :
    ensureToken legacyCfg 500 500 downEnv
        { initServerState with
            authState := AuthState.reauthRequired
            consecutiveRefreshFailures := 3 } =
      ⟨.ok "legacy-session-token",
        { initServerState with
            authState := AuthState.reauthRequired
            consecutiveRefreshFailures := 3 },
        Effects.zero⟩ :=
  legacy_session_token_bypass legacyCfg 500 500 downEnv
    { initServerState with
        authState := AuthState.reauthRequired
        consecutiveRefreshFailures := 3 }
    rfl (by decide)

/-- C8: the hCaptcha token classification of
`BrowserSession.get_hcaptcha_token` returns the absence value (and
never raises) when the challenge execution raised, yielded `null`,
yielded a non-string, or yielded a string of at most 20 characters;
it returns the token exactly for strings of 21 or more characters. -/
theorem get_hcaptcha_token_classification (s msg : String) :
    hcaptchaTokenResult (.exn msg) = none
    ∧ hcaptchaTokenResult (.value .null) = none
    ∧ hcaptchaTokenResult (.value .other) = none
    ∧ (s.length ≤ 20 → hcaptchaTokenResult (.value (.str s)) = none)
    ∧ (21 ≤ s.length → hcaptchaTokenResult (.value (.str s)) = some s) := by
  refine ⟨rfl, rfl, rfl, ?_, ?_⟩
  · intro h
    simp only [hcaptchaTokenResult, ite_eq_right_iff]
    intro hc
    omega
  · intro h
    have hne : s ≠ "" := by
      intro he
      rw [he] at h
      simp at h
    simp only [hcaptchaTokenResult]
    rw [if_pos ⟨hne, by omega⟩]

/-- Witness for C8: a 20-character response is rejected, a
21-character response is returned. -/
theorem get_hcaptcha_token_classification_witness :
    hcaptchaTokenResult (.value (.str "aaaaaaaaaaaaaaaaaaaa")) = none
    ∧ hcaptchaTokenResult (.value (.str "bbbbbbbbbbbbbbbbbbbbb")) =
        some "bbbbbbbbbbbbbbbbbbbbb" :=
  ⟨(get_hcaptcha_token_classification "aaaaaaaaaaaaaaaaaaaa" "").2.2.2.1 (by decide),
    (get_hcaptcha_token_classification "bbbbbbbbbbbbbbbbbbbbb" "").2.2.2.2 (by decide)⟩

/-- C9 (code bug): the claim that two simultaneous `_ensure_token`
calls on an expired token trigger exactly one token-exchange network
call is violated by the code: `server.py` takes no lock around the
refresh path, so the interleaving A-B-A-B (both tasks pass the expiry
check before either response arrives) issues two token-exchange calls,
with both tasks completing normally.  The serialized schedule A-A-B-B
issues only one, showing the duplication comes precisely from the
missing lock. -/
theorem concurrent_ensure_token_double_refresh :
    (runSchedule 0 0 "jwt1" concInit [true, false, true, false]).exchangeCalls = 2
    ∧ (runSchedule 0 0 "jwt1" concInit [true, false, true, false]).taskA =
        .done (.ok "jwt1")
    ∧ (runSchedule 0 0 "jwt1" concInit [true, false, true, false]).taskB =
        .done (.ok "jwt1")
    ∧ (runSchedule 0 0 "jwt1" concInit [true, true, false, false]).exchangeCalls = 1 := by
  decide

/-- C1 (counterexample): the AuthHealth biconditional
`state == REAUTH_REQUIRED ⇔ consecutiveFailures ≥ MAX_FAILURES` fails
in a reachable state: starting from the initial state in the
refresh-token flow, one tool call whose refresh succeeds but whose
downstream Suno call answers 401 runs the mark-unauthenticated branch,
which sets `reauth_required` while leaving `consecutiveFailures = 0`. -/
theorem mark_unauthenticated_breaks_auth_invariant :
    ¬ authInvariant (runSteps refreshCfg initServerState
        [⟨0, 0, happyEnv, true⟩]) := by
  decide

/-- C6 (counterexample): in the legacy configuration (`SUNO_REFRESH_TOKEN`
empty, `SUNO_SESSION_TOKEN` set), `_ensure_token` at monotonic time 100
returns the legacy token normally although the tracked expiry instant
`_token_expires` is still 0, i.e. not in the future; the invariant
"non-empty and unexpired whenever handed to a caller, or the manager
raises" is violated by the code on this path. -/
theorem legacy_token_handed_out_expired :
    (ensureToken legacyCfg 100 100 downEnv initServerState).result =
        .ok "legacy-session-token"
    ∧ ¬ ((100 : Int) <
        (ensureToken legacyCfg 100 100 downEnv initServerState).state.tokenExpires) := by
  decide

/-- C4: the downstream-401 mark-unauthenticated branch moves `ok` or
`degraded` directly to `reauth_required` regardless of the current
failure counter (which it leaves untouched), sets
`reauthRequiredSince` only if not already set, sends one notification,
and afterwards (in the refresh-token flow) every `_ensure_token` call
fails fast with no further network calls or notifications. -/
theorem mark_unauthenticated_forces_reauth (st : ServerState) (wallNow : Int)
    (msg : String)
    (h : st.authState = AuthState.ok ∨ st.authState = AuthState.degraded) :
    (markUnauthenticated wallNow msg st).1.authState = AuthState.reauthRequired
    ∧ (markUnauthenticated wallNow msg st).1.consecutiveRefreshFailures =
        st.consecutiveRefreshFailures
    ∧ (st.reauthRequiredSince = none →
        (markUnauthenticated wallNow msg st).1.reauthRequiredSince = some wallNow)
    ∧ (∀ t, st.reauthRequiredSince = some t →
        (markUnauthenticated wallNow msg st).1.reauthRequiredSince = some t)
    ∧ (markUnauthenticated wallNow msg st).2.notifications = 1
    ∧ (∀ (cfg : Config) (monoNow wallNow₂ : Int) (env : RefreshEnv),
        cfg.sunoRefreshToken ≠ "" →
        ensureToken cfg monoNow wallNow₂ env (markUnauthenticated wallNow msg st).1 =
          ⟨.error .reauthRequired, (markUnauthenticated wallNow msg st).1,
            Effects.zero⟩) := by
  refine ⟨rfl, rfl, ?_, ?_, rfl, ?_⟩
  · intro hn
    simp [markUnauthenticated, hn]
  · intro t ht
    simp [markUnauthenticated, ht]
  · intro cfg monoNow wallNow₂ env hcfg
    exact ensureToken_reauth cfg monoNow wallNow₂ env _ hcfg rfl

/-- Witness for C4: marking from a concrete `degraded` state with two
failures and an already-set `reauthRequiredSince = some 7` keeps the
original timestamp, keeps the counter at 2, and the next
`_ensure_token` call fails fast. -/
theorem mark_unauthenticated_forces_reauth_witness :
    (markUnauthenticated 99 "401" { initServerState with
        authState := AuthState.degraded
        consecutiveRefreshFailures := 2
        reauthRequiredSince := some 7 }).1.authState = AuthState.reauthRequired
    ∧ (markUnauthenticated 99 "401" { initServerState with
        authState := AuthState.degraded
        consecutiveRefreshFailures := 2
        reauthRequiredSince := some 7 }).1.consecutiveRefreshFailures = 2
    ∧ (markUnauthenticated 99 "401" { initServerState with
        authState := AuthState.degraded
        consecutiveRefreshFailures := 2
        reauthRequiredSince := some 7 }).1.reauthRequiredSince = some 7
    ∧ (markUnauthenticated 99 "401" { initServerState with
        authState := AuthState.degraded
        consecutiveRefreshFailures := 2
        reauthRequiredSince := some 7 }).2.notifications = 1
    ∧ ensureToken refreshCfg 0 0 happyEnv (markUnauthenticated 99 "401"
        { initServerState with
          authState := AuthState.degraded
          consecutiveRefreshFailures := 2
          reauthRequiredSince := some 7 }).1 =
        ⟨.error .reauthRequired, (markUnauthenticated 99 "401"
          { initServerState with
            authState := AuthState.degraded
            consecutiveRefreshFailures := 2
            reauthRequiredSince := some 7 }).1, Effects.zero⟩ := by
  obtain ⟨a, b, _, d, e, f⟩ := mark_unauthenticated_forces_reauth
    { initServerState with
      authState := AuthState.degraded
      consecutiveRefreshFailures := 2
      reauthRequiredSince := some 7 } 99 "401" (Or.inr rfl)
  exact ⟨a, b, d 7 rfl, e, f refreshCfg 0 0 happyEnv (by decide)⟩

theorem ensureToken_refresh_fail_transient (cfg : Config) (monoNow wallNow : Int)
    (env : RefreshEnv) (st : ServerState)
    (hcfg : cfg.sunoRefreshToken ≠ "")
    (hstate : st.authState ≠ AuthState.reauthRequired)
    (hta : st.accessToken = "")
    (hsid : st.sessionId ≠ "")
    (hfail : exchangeFails env.exchangeResp)
    (hlt : st.consecutiveRefreshFailures + 1 < MAX_REFRESH_FAILURES) :
    ∃ msg,
      ensureToken cfg monoNow wallNow env st =
        ⟨.error (.refreshFailed msg),
          { st with
              accessToken := ""
              consecutiveRefreshFailures := st.consecutiveRefreshFailures + 1
              lastAuthError := msg
              authState := AuthState.degraded },
          ⟨0, 1, 0⟩⟩ := by
  have hnle : ¬ (MAX_REFRESH_FAILURES ≤ st.consecutiveRefreshFailures + 1) := by omega
  rcases env with ⟨rres, xres⟩
  cases xres with
  | httpError m =>
    refine ⟨m, ?_⟩
    simp [ensureToken, refreshAccessToken, refreshFailure,
      resolveSession_cached ⟨rres, .httpError m⟩ st hsid, Effects.zero,
      hcfg, hstate, hta, hnle]
  | ok jwt =>
    have hjwt : jwt = "" := hfail
    subst hjwt
    refine ⟨"Token refresh failed: no jwt in response", ?_⟩
    simp [ensureToken, refreshAccessToken, refreshFailure,
      resolveSession_cached ⟨rres, .ok ""⟩ st hsid, Effects.zero,
      hcfg, hstate, hta, hnle]

theorem ensureToken_refresh_fail_threshold (cfg : Config) (monoNow wallNow : Int)
    (env : RefreshEnv) (st : ServerState)
    (hcfg : cfg.sunoRefreshToken ≠ "")
    (hstate : st.authState ≠ AuthState.reauthRequired)
    (hta : st.accessToken = "")
    (hsid : st.sessionId ≠ "")
    (hfail : exchangeFails env.exchangeResp)
    (hge : MAX_REFRESH_FAILURES ≤ st.consecutiveRefreshFailures + 1) :
    ∃ msg,
      ensureToken cfg monoNow wallNow env st =
        ⟨.error .reauthRequired,
          { st with
              accessToken := ""
              consecutiveRefreshFailures := st.consecutiveRefreshFailures + 1
              lastAuthError := msg
              authState := AuthState.reauthRequired
              reauthRequiredSince := some (st.reauthRequiredSince.getD wallNow) },
          ⟨0, 1, 1⟩⟩ := by
  rcases env with ⟨rres, xres⟩
  cases xres with
  | httpError m =>
    refine ⟨m, ?_⟩
    simp [ensureToken, refreshAccessToken, refreshFailure,
      resolveSession_cached ⟨rres, .httpError m⟩ st hsid, Effects.zero,
      hcfg, hstate, hta, hge]
  | ok jwt =>
    have hjwt : jwt = "" := hfail
    subst hjwt
    refine ⟨"Token refresh failed: no jwt in response", ?_⟩
    simp [ensureToken, refreshAccessToken, refreshFailure,
      resolveSession_cached ⟨rres, .ok ""⟩ st hsid, Effects.zero,
      hcfg, hstate, hta, hge]

/-- C2: starting from `ok` with a zero failure counter and no
`reauthRequiredSince`, three consecutive failing refresh attempts
driven through `_ensure_token` raise transient errors on the first two
calls (no notification), and on the third call escalate: the state
becomes `reauth_required`, `reauthRequiredSince` is set to the wall
clock of that call, the call raises the re-auth error, and the notification is
sent exactly once for the incident — any further `_ensure_token` call,
whatever its clock or network environment, fails fast, leaves the
state unchanged (so `reauthRequiredSince` is never overwritten) and
sends no further notification. -/
theorem three_refresh_failures_escalate_once (cfg : Config) (st0 : ServerState)
    (m1 w1 m2 w2 m3 w3 : Int) (e1 e2 e3 : RefreshEnv)
    (hcfg : cfg.sunoRefreshToken ≠ "")
    (hok : st0.authState = AuthState.ok)
    (hf : st0.consecutiveRefreshFailures = 0)
    (hsince : st0.reauthRequiredSince = none)
    (hta : st0.accessToken = "")
    (hsid : st0.sessionId ≠ "")
    (h1 : exchangeFails e1.exchangeResp)
    (h2 : exchangeFails e2.exchangeResp)
    (h3 : exchangeFails e3.exchangeResp) :
    (∃ m, (ensureToken cfg m1 w1 e1 st0).result = .error (.refreshFailed m))
    ∧ (∃ m, (ensureToken cfg m2 w2 e2
        (ensureToken cfg m1 w1 e1 st0).state).result = .error (.refreshFailed m))
    ∧ (ensureToken cfg m3 w3 e3 (ensureToken cfg m2 w2 e2
        (ensureToken cfg m1 w1 e1 st0).state).state).result = .error .reauthRequired
    ∧ (ensureToken cfg m3 w3 e3 (ensureToken cfg m2 w2 e2
        (ensureToken cfg m1 w1 e1 st0).state).state).state.authState =
          AuthState.reauthRequired
    ∧ (ensureToken cfg m3 w3 e3 (ensureToken cfg m2 w2 e2
        (ensureToken cfg m1 w1 e1 st0).state).state).state.consecutiveRefreshFailures =
          MAX_REFRESH_FAILURES
    ∧ (ensureToken cfg m3 w3 e3 (ensureToken cfg m2 w2 e2
        (ensureToken cfg m1 w1 e1 st0).state).state).state.reauthRequiredSince = some w3
    ∧ (ensureToken cfg m1 w1 e1 st0).eff.notifications = 0
    ∧ (ensureToken cfg m2 w2 e2
        (ensureToken cfg m1 w1 e1 st0).state).eff.notifications = 0
    ∧ (ensureToken cfg m3 w3 e3 (ensureToken cfg m2 w2 e2
        (ensureToken cfg m1 w1 e1 st0).state).state).eff.notifications = 1
    ∧ (∀ (monoNow wallNow : Int) (env : RefreshEnv),
        ensureToken cfg monoNow wallNow env
            (ensureToken cfg m3 w3 e3 (ensureToken cfg m2 w2 e2
              (ensureToken cfg m1 w1 e1 st0).state).state).state =
          ⟨.error .reauthRequired,
            (ensureToken cfg m3 w3 e3 (ensureToken cfg m2 w2 e2
              (ensureToken cfg m1 w1 e1 st0).state).state).state,
            Effects.zero⟩) := by
  have hstate0 : st0.authState ≠ AuthState.reauthRequired := by
    rw [hok]
    decide
  have hlt1 : st0.consecutiveRefreshFailures + 1 < MAX_REFRESH_FAILURES := by
    rw [hf]
    decide
  obtain ⟨msg1, hE1⟩ := ensureToken_refresh_fail_transient cfg m1 w1 e1 st0
    hcfg hstate0 hta hsid h1 hlt1
  rw [hE1]
  set st1 : ServerState :=
    { st0 with
        accessToken := ""
        consecutiveRefreshFailures := st0.consecutiveRefreshFailures + 1
        lastAuthError := msg1
        authState := AuthState.degraded } with hst1
  have hlt2 : st1.consecutiveRefreshFailures + 1 < MAX_REFRESH_FAILURES := by
    simp [hst1, hf]
    decide
  obtain ⟨msg2, hE2⟩ := ensureToken_refresh_fail_transient cfg m2 w2 e2 st1
    hcfg (by simp [hst1]) (by simp [hst1]) (by simpa [hst1] using hsid) h2 hlt2
  simp only at hE2 ⊢
  rw [hE2]
  set st2 : ServerState :=
    { st1 with
        accessToken := ""
        consecutiveRefreshFailures := st1.consecutiveRefreshFailures + 1
        lastAuthError := msg2
        authState := AuthState.degraded } with hst2
  have hge3 : MAX_REFRESH_FAILURES ≤ st2.consecutiveRefreshFailures + 1 := by
    simp [hst2, hst1, hf]
    decide
  obtain ⟨msg3, hE3⟩ := ensureToken_refresh_fail_threshold cfg m3 w3 e3 st2
    hcfg (by simp [hst2]) (by simp [hst2]) (by simpa [hst2, hst1] using hsid) h3 hge3
  simp only at hE3 ⊢
  rw [hE3]
  refine ⟨⟨msg1, by trivial⟩, ⟨msg2, by trivial⟩, by trivial, by trivial, ?_, ?_,
    by trivial, by trivial, by trivial, ?_⟩
  · simp [hst2, hst1, hf]
    decide
  · simp [hst2, hst1, hsince]
  · intro monoNow wallNow env
    exact ensureToken_reauth cfg monoNow wallNow env _ hcfg rfl

/-- A concrete start state for exercising the refresh-failure runs:
the initial globals with the session id already resolved. -/
def failRunState : ServerState := { initServerState with sessionId := "sess_1" }

/-- Witness for C2: a concrete three-failure run against a dead Clerk
endpoint ends with the re-auth error raised, and only the third call
sends a notification. -/
theorem three_refresh_failures_escalate_once_witness :
    (ensureToken refreshCfg 3 3 downEnv (ensureToken refreshCfg 2 2 downEnv
        (ensureToken refreshCfg 1 1 downEnv failRunState).state).state).result =
      .error .reauthRequired
    ∧ (ensureToken refreshCfg 1 1 downEnv failRunState).eff.notifications = 0
    ∧ (ensureToken refreshCfg 3 3 downEnv (ensureToken refreshCfg 2 2 downEnv
        (ensureToken refreshCfg 1 1 downEnv failRunState).state).state).eff.notifications = 1 := by
  obtain ⟨_, _, h3, _, _, _, h7, _, h9, _⟩ :=
    three_refresh_failures_escalate_once refreshCfg failRunState 1 1 2 2 3 3
      downEnv downEnv downEnv (by decide) rfl rfl rfl rfl (by decide)
      (by decide) (by decide) (by decide)
  exact ⟨h3, h7, h9⟩

/-- C5: `_ensure_token` is lazy and margin-based.  First conjunct: with
a cached token and a monotonic clock not past
`_token_expires - TOKEN_REFRESH_MARGIN`, the cached token is returned
with no network call.  Second conjunct: with no cached token or a
clock past that threshold, the refresh runs — one token-exchange call
— and on success sets `_token_expires = monoNow + 55`.  Third
conjunct: a second call within the TTL-minus-margin window of a
successful refresh returns the fresh token from cache with zero
network calls, so two calls in the window trigger at most one
refresh. -/
theorem ensure_token_lazy_margin_refresh (cfg : Config) (st : ServerState)
    (monoNow wallNow : Int) (env : RefreshEnv)
    (hcfg : cfg.sunoRefreshToken ≠ "")
    (hstate : st.authState ≠ AuthState.reauthRequired) :
    (st.accessToken ≠ "" → ¬ (monoNow > st.tokenExpires - TOKEN_REFRESH_MARGIN) →
      ensureToken cfg monoNow wallNow env st = ⟨.ok st.accessToken, st, Effects.zero⟩)
    ∧ (∀ jwt, (st.accessToken = "" ∨ monoNow > st.tokenExpires - TOKEN_REFRESH_MARGIN) →
        st.sessionId ≠ "" → env.exchangeResp = .ok jwt → jwt ≠ "" →
        (ensureToken cfg monoNow wallNow env st).state.tokenExpires = monoNow + 55
        ∧ (ensureToken cfg monoNow wallNow env st).result = .ok jwt
        ∧ (ensureToken cfg monoNow wallNow env st).eff.exchangeCalls = 1)
    ∧ (∀ jwt (mono₂ wall₂ : Int) (env₂ : RefreshEnv),
        (st.accessToken = "" ∨ monoNow > st.tokenExpires - TOKEN_REFRESH_MARGIN) →
        st.sessionId ≠ "" → env.exchangeResp = .ok jwt → jwt ≠ "" →
        mono₂ ≤ monoNow + 55 - TOKEN_REFRESH_MARGIN →
        ensureToken cfg mono₂ wall₂ env₂ (ensureToken cfg monoNow wallNow env st).state =
          ⟨.ok jwt, (ensureToken cfg monoNow wallNow env st).state, Effects.zero⟩) := by
  refine ⟨?_, ?_, ?_⟩
  · intro h2 h3
    exact ensureToken_cached cfg monoNow wallNow env st hcfg hstate h2 h3
  · intro jwt hneed hsid hx hjwt
    rw [ensureToken_refresh_success cfg monoNow wallNow env st jwt hcfg hstate
      hneed hsid hx hjwt]
    exact ⟨rfl, rfl, rfl⟩
  · intro jwt mono₂ wall₂ env₂ hneed hsid hx hjwt hwin
    rw [ensureToken_refresh_success cfg monoNow wallNow env st jwt hcfg hstate
      hneed hsid hx hjwt]
    exact ensureToken_cached cfg mono₂ wall₂ env₂ _ hcfg (by simp) hjwt
      (by simp only [TOKEN_REFRESH_MARGIN] at hwin ⊢; omega)

/-- Witness for C5: a successful refresh at monotonic time 10 sets the
expiry to 65, and a second call at time 35 (the edge of the
TTL-minus-margin window) returns the cached token with no network
call. -/
theorem ensure_token_lazy_margin_refresh_witness :
    (ensureToken refreshCfg 10 10 happyEnv failRunState).state.tokenExpires = 65
    ∧ (ensureToken refreshCfg 10 10 happyEnv failRunState).result = .ok "jwt1"
    ∧ (ensureToken refreshCfg 10 10 happyEnv failRunState).eff.exchangeCalls = 1
    ∧ ensureToken refreshCfg 35 35 downEnv
        (ensureToken refreshCfg 10 10 happyEnv failRunState).state =
      ⟨.ok "jwt1", (ensureToken refreshCfg 10 10 happyEnv failRunState).state,
        Effects.zero⟩ := by
  obtain ⟨_, hb, hc⟩ := ensure_token_lazy_margin_refresh refreshCfg failRunState
    10 10 happyEnv (by decide) (by decide)
  obtain ⟨h1, h2, h3⟩ := hb "jwt1" (Or.inl rfl) (by decide) rfl (by decide)
  exact ⟨h1, h2, h3, hc "jwt1" 35 35 downEnv (Or.inl rfl) (by decide) rfl
    (by decide) (by decide)⟩

/-- C7: `_resolve_session` returns the cached session id with no
network call when one is cached; otherwise it issues exactly one call
to the Clerk current-client endpoint and extracts
`last_active_session_id`, falling back to the id of the first entry of
the `sessions` list when `last_active_session_id` is absent, caching
the extracted id; when neither source yields an id it raises the
session-resolution error. -/
theorem resolve_session_extraction (env : RefreshEnv) (st : ServerState) :
    (st.sessionId ≠ "" →
      resolveSession env st = ⟨.ok st.sessionId, st, Effects.zero⟩)
    ∧ (∀ c s, st.sessionId = "" → env.resolveResp = .ok c →
        c.lastActiveSessionId = some s → s ≠ "" →
        resolveSession env st = ⟨.ok s, { st with sessionId := s }, ⟨1, 0, 0⟩⟩)
    ∧ (∀ c e rest i, st.sessionId = "" → env.resolveResp = .ok c →
        c.lastActiveSessionId = none → c.sessions = some (e :: rest) →
        e.id = some i → i ≠ "" →
        resolveSession env st = ⟨.ok i, { st with sessionId := i }, ⟨1, 0, 0⟩⟩)
    ∧ (∀ c, st.sessionId = "" → env.resolveResp = .ok c →
        clientSessionId c = "" →
        resolveSession env st =
          ⟨.error (.sessionResolution
              "Could not resolve Clerk session ID. Refresh token may be invalid."),
            st, ⟨1, 0, 0⟩⟩) := by
  refine ⟨fun h => resolveSession_cached env st h, ?_, ?_, ?_⟩
  · intro c s hsid hresp hla hs
    have hc : clientSessionId c = s := by
      simp [clientSessionId, hla, hs]
    simp [resolveSession, hsid, hresp, hc, hs]
  · intro c e rest i hsid hresp hla hsess hid hi
    have hc : clientSessionId c = i := by
      simp [clientSessionId, hla, hsess, hid]
    simp [resolveSession, hsid, hresp, hc, hi]
  · intro c hsid hresp hc
    simp [resolveSession, hsid, hresp, hc]

/-- Witness for C7: concrete checks of all four behaviors — cache hit,
extraction from `last_active_session_id`, fallback to the first entry
of `sessions`, and the error when neither source yields an id. -/
theorem resolve_session_extraction_witness :
    resolveSession downEnv failRunState =
      ⟨.ok "sess_1", failRunState, Effects.zero⟩
    ∧ resolveSession ⟨.ok ⟨some "sess_A", none⟩, .httpError "x"⟩ initServerState =
      ⟨.ok "sess_A", { initServerState with sessionId := "sess_A" }, ⟨1, 0, 0⟩⟩
    ∧ resolveSession ⟨.ok ⟨none, some [⟨some "sess_B"⟩, ⟨none⟩]⟩, .httpError "x"⟩
        initServerState =
      ⟨.ok "sess_B", { initServerState with sessionId := "sess_B" }, ⟨1, 0, 0⟩⟩
    ∧ resolveSession ⟨.ok ⟨none, some []⟩, .httpError "x"⟩ initServerState =
      ⟨.error (.sessionResolution
          "Could not resolve Clerk session ID. Refresh token may be invalid."),
        initServerState, ⟨1, 0, 0⟩⟩ := by
  refine ⟨(resolve_session_extraction downEnv failRunState).1 (by decide),
    (resolve_session_extraction ⟨.ok ⟨some "sess_A", none⟩, .httpError "x"⟩
        initServerState).2.1 ⟨some "sess_A", none⟩ "sess_A" rfl rfl rfl (by decide),
    (resolve_session_extraction ⟨.ok ⟨none, some [⟨some "sess_B"⟩, ⟨none⟩]⟩,
        .httpError "x"⟩ initServerState).2.2.1 ⟨none, some [⟨some "sess_B"⟩, ⟨none⟩]⟩
      ⟨some "sess_B"⟩ [⟨none⟩] "sess_B" rfl rfl rfl rfl rfl (by decide),
    (resolve_session_extraction ⟨.ok ⟨none, some []⟩, .httpError "x"⟩
        initServerState).2.2.2 ⟨none, some []⟩ rfl rfl (by decide)⟩


theorem refreshFailure_ne_ok (msg : String) (wallNow : Int) (st : ServerState)
    (eff : Effects) (jwt : String) (st1 : ServerState) (eff1 : Effects) :
    refreshFailure msg wallNow st eff ≠ ⟨.ok jwt, st1, eff1⟩ := by
  simp only [refreshFailure]
  split <;> simp

theorem refreshAccessToken_ok_char (monoNow wallNow : Int) (env : RefreshEnv)
    (st st1 : ServerState) (jwt : String) (eff : Effects)
    (h : refreshAccessToken monoNow wallNow env st = ⟨.ok jwt, st1, eff⟩) :
    jwt ≠ "" ∧ st1.accessToken = jwt ∧ st1.tokenExpires = monoNow + 55 ∧
    st1.authState = AuthState.ok ∧ st1.consecutiveRefreshFailures = 0 ∧
    st1.reauthRequiredSince = none := by
  unfold refreshAccessToken at h
  split at h
  · simp at h
  · rename_i sid0 st2 eff2 heqr
    simp only at h
    split at h
    · exact absurd h (refreshFailure_ne_ok _ _ _ _ _ _ _)
    · rename_i jwt0 heqx
      split at h
      · exact absurd h (refreshFailure_ne_ok _ _ _ _ _ _ _)
      · rename_i hjwt0
        obtain ⟨h1, h2, h3⟩ := OpResult.mk.inj h
        obtain rfl : jwt0 = jwt := Except.ok.inj h1
        subst h2
        exact ⟨hjwt0, rfl, rfl, rfl, rfl, rfl⟩

/-- C6 (amended): when the refresh-token flow is configured, every
`_ensure_token` call that returns normally hands out a non-empty
access token whose tracked expiry instant lies strictly in the future
of the monotonic clock of the call; whenever this cannot be guaranteed the
call raises instead.  (The legacy `SUNO_SESSION_TOKEN` path, exercised
only when `SUNO_REFRESH_TOKEN` is empty, returns a static token with
no expiry tracking, see the counterexample.) -/
theorem ensure_token_returns_valid_token_amended (cfg : Config)
    (monoNow wallNow : Int) (env : RefreshEnv) (st : ServerState) (tok : String)
    (hcfg : cfg.sunoRefreshToken ≠ "")
    (h : (ensureToken cfg monoNow wallNow env st).result = .ok tok) :
    tok ≠ "" ∧ monoNow < (ensureToken cfg monoNow wallNow env st).state.tokenExpires := by
  rcases hE : ensureToken cfg monoNow wallNow env st with ⟨res, stf, eff⟩
  rw [hE] at h
  simp only at h ⊢
  unfold ensureToken at hE
  rw [if_pos hcfg] at hE
  split at hE
  · obtain ⟨h1, _, _⟩ := OpResult.mk.inj hE
    rw [← h1] at h
    simp at h
  · split at hE
    · rename_i hneed
      split at hE
      · rename_i val st1 eff1 heq
        obtain ⟨h1, h2, _⟩ := OpResult.mk.inj hE
        rw [← h1] at h
        obtain htok : st1.accessToken = tok := Except.ok.inj h
        subst h2
        obtain ⟨ha, hb, hc, _, _, _⟩ :=
          refreshAccessToken_ok_char monoNow wallNow env st st1 val eff1 heq
        refine ⟨?_, ?_⟩
        · rw [← htok, hb]
          exact ha
        · rw [hc]
          omega
      · obtain ⟨h1, _, _⟩ := OpResult.mk.inj hE
        rw [← h1] at h
        simp at h
    · rename_i hneed
      obtain ⟨h1, h2, _⟩ := OpResult.mk.inj hE
      rw [← h1] at h
      obtain htok : st.accessToken = tok := Except.ok.inj h
      subst h2
      push_neg at hneed
      obtain ⟨hne, hle⟩ := hneed
      refine ⟨?_, ?_⟩
      · rw [← htok]
        exact hne
      · simp only [TOKEN_REFRESH_MARGIN] at hle
        omega

/-- Witness for C6: a concrete successful refresh at monotonic time 10
returns the fresh token `jwt1`, which is non-empty, with tracked
expiry 65 lying in the future. -/
theorem ensure_token_returns_valid_token_amended_witness :
    ("jwt1" : String) ≠ ""
    ∧ (10 : Int) < (ensureToken refreshCfg 10 10 happyEnv failRunState).state.tokenExpires :=
  ensure_token_returns_valid_token_amended refreshCfg 10 10 happyEnv failRunState
    "jwt1" (by decide) (by decide)

theorem ensureToken_state_refresh (cfg : Config) (monoNow wallNow : Int)
    (env : RefreshEnv) (st : ServerState)
    (hcfg : cfg.sunoRefreshToken ≠ "")
    (hre : ¬ st.authState = AuthState.reauthRequired)
    (hneed : st.accessToken = "" ∨ monoNow > st.tokenExpires - TOKEN_REFRESH_MARGIN) :
    (ensureToken cfg monoNow wallNow env st).state =
      (refreshAccessToken monoNow wallNow env st).state := by
  rcases hR : refreshAccessToken monoNow wallNow env st with ⟨r, st1, e⟩
  cases r <;> simp [ensureToken, hcfg, hre, hneed, hR]


theorem refreshFailure_preserves (msg : String) (wallNow : Int) (st : ServerState)
    (eff : Effects) :
    authInvariant (refreshFailure msg wallNow st eff).state ∧
    authInvariantBack (refreshFailure msg wallNow st eff).state := by
  by_cases hthr : MAX_REFRESH_FAILURES ≤ st.consecutiveRefreshFailures + 1
  · simp only [refreshFailure, if_pos hthr]
    refine ⟨?_, ?_⟩
    · simp [authInvariant, hthr]
    · simp [authInvariantBack]
  · simp only [refreshFailure, if_neg hthr]
    refine ⟨?_, ?_⟩
    · simp [authInvariant, hthr]
    · simp [authInvariantBack, hthr]

theorem refreshAccessToken_preserves_invariants (monoNow wallNow : Int)
    (env : RefreshEnv) (st : ServerState) :
    (authInvariant st →
      authInvariant (refreshAccessToken monoNow wallNow env st).state)
    ∧ (authInvariantBack st →
      authInvariantBack (refreshAccessToken monoNow wallNow env st).state) := by
  rcases env with ⟨rres, xres⟩
  by_cases hsid : st.sessionId ≠ ""
  · have hRes := resolveSession_cached ⟨rres, xres⟩ st hsid
    cases xres with
    | httpError m =>
      have heq : refreshAccessToken monoNow wallNow ⟨rres, .httpError m⟩ st =
          refreshFailure m wallNow st ⟨0, 1, 0⟩ := by
        simp [refreshAccessToken, hRes, Effects.zero]
      rw [heq]
      exact ⟨fun _ => (refreshFailure_preserves m wallNow st ⟨0, 1, 0⟩).1,
        fun _ => (refreshFailure_preserves m wallNow st ⟨0, 1, 0⟩).2⟩
    | ok jwt =>
      by_cases hjwt : jwt = ""
      · subst hjwt
        have heq : refreshAccessToken monoNow wallNow ⟨rres, .ok ""⟩ st =
            refreshFailure "Token refresh failed: no jwt in response" wallNow
              { st with accessToken := "" } ⟨0, 1, 0⟩ := by
          simp [refreshAccessToken, hRes, Effects.zero]
        rw [heq]
        exact ⟨fun _ => (refreshFailure_preserves _ wallNow _ ⟨0, 1, 0⟩).1,
          fun _ => (refreshFailure_preserves _ wallNow _ ⟨0, 1, 0⟩).2⟩
      · constructor <;> intro _ <;>
          simp [refreshAccessToken, hRes, hjwt, authInvariant, authInvariantBack,
            MAX_REFRESH_FAILURES]
  · cases rres with
    | httpError m =>
      have heq : refreshAccessToken monoNow wallNow ⟨.httpError m, xres⟩ st =
          ⟨.error (.httpError m), st, ⟨1, 0, 0⟩⟩ := by
        simp [refreshAccessToken, resolveSession, hsid]
      rw [heq]
      exact ⟨fun h => h, fun h => h⟩
    | ok c =>
      by_cases hc : clientSessionId c = ""
      · have heq : refreshAccessToken monoNow wallNow ⟨.ok c, xres⟩ st =
            ⟨.error (.sessionResolution
                "Could not resolve Clerk session ID. Refresh token may be invalid."),
              st, ⟨1, 0, 0⟩⟩ := by
          simp [refreshAccessToken, resolveSession, hsid, hc]
        rw [heq]
        exact ⟨fun h => h, fun h => h⟩
      · have hRes : resolveSession ⟨.ok c, xres⟩ st =
            ⟨.ok (clientSessionId c), { st with sessionId := clientSessionId c },
              ⟨1, 0, 0⟩⟩ := by
          simp [resolveSession, hsid, hc]
        cases xres with
        | httpError m =>
          have heq : refreshAccessToken monoNow wallNow ⟨.ok c, .httpError m⟩ st =
              refreshFailure m wallNow { st with sessionId := clientSessionId c }
                ⟨1, 1, 0⟩ := by
            simp [refreshAccessToken, hRes]
          rw [heq]
          exact ⟨fun _ => (refreshFailure_preserves m wallNow _ ⟨1, 1, 0⟩).1,
            fun _ => (refreshFailure_preserves m wallNow _ ⟨1, 1, 0⟩).2⟩
        | ok jwt =>
          by_cases hjwt : jwt = ""
          · subst hjwt
            have heq : refreshAccessToken monoNow wallNow ⟨.ok c, .ok ""⟩ st =
                refreshFailure "Token refresh failed: no jwt in response" wallNow
                  { st with sessionId := clientSessionId c, accessToken := "" }
                  ⟨1, 1, 0⟩ := by
              simp [refreshAccessToken, hRes]
            rw [heq]
            exact ⟨fun _ => (refreshFailure_preserves _ wallNow _ ⟨1, 1, 0⟩).1,
              fun _ => (refreshFailure_preserves _ wallNow _ ⟨1, 1, 0⟩).2⟩
          · constructor <;> intro _ <;>
              simp [refreshAccessToken, hRes, hjwt, authInvariant, authInvariantBack,
                MAX_REFRESH_FAILURES]

theorem ensureToken_preserves_invariants (cfg : Config) (monoNow wallNow : Int)
    (env : RefreshEnv) (st : ServerState) :
    (authInvariant st →
      authInvariant (ensureToken cfg monoNow wallNow env st).state)
    ∧ (authInvariantBack st →
      authInvariantBack (ensureToken cfg monoNow wallNow env st).state) := by
  by_cases hcfg : cfg.sunoRefreshToken ≠ ""
  · by_cases hre : st.authState = AuthState.reauthRequired
    · rw [ensureToken_reauth cfg monoNow wallNow env st hcfg hre]
      exact ⟨id, id⟩
    · by_cases hneed : st.accessToken = "" ∨
          monoNow > st.tokenExpires - TOKEN_REFRESH_MARGIN
      · rw [ensureToken_state_refresh cfg monoNow wallNow env st hcfg hre hneed]
        exact refreshAccessToken_preserves_invariants monoNow wallNow env st
      · push_neg at hneed
        rw [ensureToken_cached cfg monoNow wallNow env st hcfg hre hneed.1
          (not_lt.mpr hneed.2)]
        exact ⟨id, id⟩
  · by_cases hst : cfg.sunoSessionToken ≠ "" <;>
      · have heq : ensureToken cfg monoNow wallNow env st =
            ⟨if cfg.sunoSessionToken ≠ "" then .ok cfg.sunoSessionToken
              else .error .noCredentials, st, Effects.zero⟩ := by
          by_cases hst2 : cfg.sunoSessionToken ≠ "" <;> simp [ensureToken, hcfg, hst2]
        rw [heq]
        exact ⟨id, id⟩

theorem toolStep_preserves_back (cfg : Config) (monoNow wallNow : Int)
    (env : RefreshEnv) (b : Bool) (st : ServerState)
    (h : authInvariantBack st) :
    authInvariantBack (toolStep cfg monoNow wallNow env b st) := by
  have hE := (ensureToken_preserves_invariants cfg monoNow wallNow env st).2 h
  rcases hRes : ensureToken cfg monoNow wallNow env st with ⟨r, st1, e⟩
  rw [hRes] at hE
  simp only at hE
  cases r with
  | ok v =>
    cases b with
    | true => simp [toolStep, hRes, authInvariantBack, markUnauthenticated]
    | false => simpa [toolStep, hRes] using hE
  | error err => simpa [toolStep, hRes] using hE

theorem runSteps_preserves_back (cfg : Config) (steps : List Step) :
    ∀ st : ServerState, authInvariantBack st →
      authInvariantBack (runSteps cfg st steps) := by
  induction steps with
  | nil => exact fun _ h => h
  | cons s rest ih =>
    intro st h
    exact ih _ (toolStep_preserves_back cfg s.monoNow s.wallNow s.env
      s.downstream401 st h)

/-- C1 (amended): in every state reachable from the initial state
under tool-level events, `consecutiveFailures ≥ MAX_FAILURES (3)`
implies `state == REAUTH_REQUIRED`, and the refresh-path operation
`_ensure_token` (hence `_refresh_access_token` in both its success and
failure branches) preserves the full biconditional
`state == REAUTH_REQUIRED ⇔ consecutiveFailures ≥ MAX_FAILURES`.  The
converse direction of the invariant does not hold in all reachable
states: the downstream-401 mark path forces `REAUTH_REQUIRED` without
touching `consecutiveFailures` (see the counterexample). -/
theorem auth_invariant_amended (cfg : Config) (steps : List Step) :
    authInvariantBack (runSteps cfg initServerState steps)
    ∧ (∀ (st : ServerState) (monoNow wallNow : Int) (env : RefreshEnv),
        authInvariant st →
        authInvariant (ensureToken cfg monoNow wallNow env st).state) := by
  refine ⟨runSteps_preserves_back cfg steps initServerState ?_, ?_⟩
  · intro h
    simp [initServerState, MAX_REFRESH_FAILURES] at h
  · intro st monoNow wallNow env h
    exact (ensureToken_preserves_invariants cfg monoNow wallNow env st).1 h

/-- Witness for C1 (amended): the one-sided invariant holds after a
concrete run that ends in the mark-unauthenticated branch, and a
concrete `_ensure_token` call from the initial state (which satisfies
the biconditional) preserves the biconditional. -/
theorem auth_invariant_amended_witness :
    authInvariantBack (runSteps refreshCfg initServerState [⟨0, 0, happyEnv, true⟩])
    ∧ authInvariant (ensureToken refreshCfg 0 0 happyEnv initServerState).state :=
  ⟨(auth_invariant_amended refreshCfg [⟨0, 0, happyEnv, true⟩]).1,
    (auth_invariant_amended refreshCfg []).2 initServerState 0 0 happyEnv (by decide)⟩
